import Mathlib

/-!
Shallow embedding of `pyglet/matrix.py`: the `Mat4` 4x4 matrix value type
(16 components in row-major order) with its elementwise operators, matrix
multiplication, in-place transform helpers (modelled by explicit state
passing), and the two projection factories `create_orthogonal` and
`create_perspective`.

Numeric components are modelled by an arbitrary field (instantiated at `ℚ`
for concrete evaluation and at `ℝ` for statements involving trigonometry).
The trigonometric functions used by `rotate` and `create_perspective`
(`math.cos`, `math.sin`, `math.tan`, `math.pi`) are abstracted into a
`TrigOps` bundle so the definitions stay computable; statements that need
the actual real functions instantiate the bundle with `Real.cos`,
`Real.sin`, `Real.tan` and `Real.pi`.
-/

namespace Pyglet

/-- The trigonometric primitives of Python `math` used by the source:
`cos`, `sin`, `tan` and the constant `pi`. -/
structure TrigOps (α : Type) where
  cos : α → α
  sin : α → α
  tan : α → α
  pi : α

/-- `Mat4`: a 4x4 matrix stored as 16 components in row-major linear order,
`m0` .. `m15` being linear indices 0 .. 15 of the Python list subclass. -/
@[ext]
structure Mat4 (α : Type) where
  m0 : α
  m1 : α
  m2 : α
  m3 : α
  m4 : α
  m5 : α
  m6 : α
  m7 : α
  m8 : α
  m9 : α
  m10 : α
  m11 : α
  m12 : α
  m13 : α
  m14 : α
  m15 : α
deriving DecidableEq

variable {α : Type} [Field α]

/-- The identity default used by `Mat4.__init__` when `values` is `None`:
1.0 on diagonal indices 0, 5, 10, 15 and 0.0 elsewhere. -/
def Mat4.identity : Mat4 α :=
  ⟨1, 0, 0, 0,
   0, 1, 0, 0,
   0, 0, 1, 0,
   0, 0, 0, 1⟩

/-- The 16 components as a list in linear (row-major) order,
matching iteration over the Python list subclass. -/
def Mat4.toList (m : Mat4 α) : List α :=
  [m.m0, m.m1, m.m2, m.m3, m.m4, m.m5, m.m6, m.m7,
   m.m8, m.m9, m.m10, m.m11, m.m12, m.m13, m.m14, m.m15]

/-- Component at linear index `i`, i.e. Python `self[i]`. -/
def Mat4.get (m : Mat4 α) (i : Fin 16) : α :=
  m.toList.get (Fin.cast rfl i)

/-- Build a `Mat4` from a list of exactly 16 values in row-major order
(the successful branch of `Mat4.__init__`). -/
def Mat4.ofList (vs : List α) (h : vs.length = 16) : Mat4 α :=
  ⟨vs.get ⟨0, by omega⟩, vs.get ⟨1, by omega⟩, vs.get ⟨2, by omega⟩,
   vs.get ⟨3, by omega⟩, vs.get ⟨4, by omega⟩, vs.get ⟨5, by omega⟩,
   vs.get ⟨6, by omega⟩, vs.get ⟨7, by omega⟩, vs.get ⟨8, by omega⟩,
   vs.get ⟨9, by omega⟩, vs.get ⟨10, by omega⟩, vs.get ⟨11, by omega⟩,
   vs.get ⟨12, by omega⟩, vs.get ⟨13, by omega⟩, vs.get ⟨14, by omega⟩,
   vs.get ⟨15, by omega⟩⟩

/-- `Mat4.__init__(self, values=None)`: asserts
`values is None or len(values) == 16` (the assert failing is modelled as
`Except.error` with the assert message), then uses `values or identity`.
An absent (`none`) argument yields the identity; a list of any length
other than 16 — including the empty list, which fails the assert since it
is not `None` and its length is 0 — is rejected. -/
def Mat4.init (values : Option (List α)) : Except String (Mat4 α) :=
  match values with
  | none => .ok Mat4.identity
  | some vs =>
    if h : vs.length = 16 then .ok (Mat4.ofList vs h)
    else .error "A 4x4 Matrix requires 16 values"

/-- `Mat4.__add__`: componentwise addition, returning a new matrix. -/
def Mat4.add (s o : Mat4 α) : Mat4 α :=
  ⟨s.m0 + o.m0, s.m1 + o.m1, s.m2 + o.m2, s.m3 + o.m3,
   s.m4 + o.m4, s.m5 + o.m5, s.m6 + o.m6, s.m7 + o.m7,
   s.m8 + o.m8, s.m9 + o.m9, s.m10 + o.m10, s.m11 + o.m11,
   s.m12 + o.m12, s.m13 + o.m13, s.m14 + o.m14, s.m15 + o.m15⟩

/-- `Mat4.__sub__`: componentwise subtraction, returning a new matrix. -/
def Mat4.sub (s o : Mat4 α) : Mat4 α :=
  ⟨s.m0 - o.m0, s.m1 - o.m1, s.m2 - o.m2, s.m3 - o.m3,
   s.m4 - o.m4, s.m5 - o.m5, s.m6 - o.m6, s.m7 - o.m7,
   s.m8 - o.m8, s.m9 - o.m9, s.m10 - o.m10, s.m11 - o.m11,
   s.m12 - o.m12, s.m13 - o.m13, s.m14 - o.m14, s.m15 - o.m15⟩

/-- `Mat4.__mul__`: componentwise (elementwise) multiplication,
returning a new matrix. -/
def Mat4.mul (s o : Mat4 α) : Mat4 α :=
  ⟨s.m0 * o.m0, s.m1 * o.m1, s.m2 * o.m2, s.m3 * o.m3,
   s.m4 * o.m4, s.m5 * o.m5, s.m6 * o.m6, s.m7 * o.m7,
   s.m8 * o.m8, s.m9 * o.m9, s.m10 * o.m10, s.m11 * o.m11,
   s.m12 * o.m12, s.m13 * o.m13, s.m14 * o.m14, s.m15 * o.m15⟩

/-- `Mat4.__matmul__`: true 4x4 matrix multiplication; rows of `s`
(slices `self[0:4]` etc.) dotted with columns of `o` (strided slices
`other[j::4]`), results laid out row-major `a` .. `p` as in the source. -/
def Mat4.matmul (s o : Mat4 α) : Mat4 α :=
  ⟨s.m0 * o.m0 + s.m1 * o.m4 + s.m2 * o.m8 + s.m3 * o.m12,
   s.m0 * o.m1 + s.m1 * o.m5 + s.m2 * o.m9 + s.m3 * o.m13,
   s.m0 * o.m2 + s.m1 * o.m6 + s.m2 * o.m10 + s.m3 * o.m14,
   s.m0 * o.m3 + s.m1 * o.m7 + s.m2 * o.m11 + s.m3 * o.m15,
   s.m4 * o.m0 + s.m5 * o.m4 + s.m6 * o.m8 + s.m7 * o.m12,
   s.m4 * o.m1 + s.m5 * o.m5 + s.m6 * o.m9 + s.m7 * o.m13,
   s.m4 * o.m2 + s.m5 * o.m6 + s.m6 * o.m10 + s.m7 * o.m14,
   s.m4 * o.m3 + s.m5 * o.m7 + s.m6 * o.m11 + s.m7 * o.m15,
   s.m8 * o.m0 + s.m9 * o.m4 + s.m10 * o.m8 + s.m11 * o.m12,
   s.m8 * o.m1 + s.m9 * o.m5 + s.m10 * o.m9 + s.m11 * o.m13,
   s.m8 * o.m2 + s.m9 * o.m6 + s.m10 * o.m10 + s.m11 * o.m14,
   s.m8 * o.m3 + s.m9 * o.m7 + s.m10 * o.m11 + s.m11 * o.m15,
   s.m12 * o.m0 + s.m13 * o.m4 + s.m14 * o.m8 + s.m15 * o.m12,
   s.m12 * o.m1 + s.m13 * o.m5 + s.m14 * o.m9 + s.m15 * o.m13,
   s.m12 * o.m2 + s.m13 * o.m6 + s.m14 * o.m10 + s.m15 * o.m14,
   s.m12 * o.m3 + s.m13 * o.m7 + s.m14 * o.m11 + s.m15 * o.m15⟩

/-- `Mat4.translate(x, y, z)`: the in-place mutation
`self[12] += x; self[13] += y; self[14] += z` modelled by returning the
updated state. -/
def Mat4.translate (m : Mat4 α) (x y z : α) : Mat4 α :=
  { m with m12 := m.m12 + x, m13 := m.m13 + y, m14 := m.m14 + z }

/-- `Mat4.scale(value)`: the in-place mutation
`self[0] *= value; self[5] *= value; self[10] *= value`. -/
def Mat4.scale (m : Mat4 α) (value : α) : Mat4 α :=
  { m with m0 := m.m0 * value, m5 := m.m5 * value, m10 := m.m10 * value }

/-- `Mat4.rotate(angle, x, y, z)`: builds the axis-angle rotation matrix
`rmat` exactly as the source does (`math.radians(angle)` is
`angle * pi / 180`; the fourth row and fourth column of `rmat` are all
zero) and then performs the wholesale in-place replacement
`self[:] = self @ rmat`, modelled by returning the product. -/
def Mat4.rotate (T : TrigOps α) (m : Mat4 α) (angle x y z : α) : Mat4 α :=
  let r := angle * T.pi / 180
  let c := T.cos r
  let s := T.sin r
  let tempx := (1 - c) * x
  let tempy := (1 - c) * y
  let tempz := (1 - c) * z
  let ra := c + tempx * x
  let rb := 0 + tempx * y + s * z
  let rc := 0 + tempx * z - s * y
  let re := 0 + tempy * x - s * z
  let rf := c + tempy * y
  let rg := 0 + tempy * z + s * x
  let ri := 0 + tempz * x + s * y
  let rj := 0 + tempz * y - s * x
  let rk := c + tempz * z
  let rmat : Mat4 α := ⟨ra, rb, rc, 0, re, rf, rg, 0, ri, rj, rk, 0, 0, 0, 0, 0⟩
  m.matmul rmat

/-- `create_orthogonal(left, right, bottom, top, znear, zfar)`:
orthographic projection factory. -/
def create_orthogonal (left right bottom top znear zfar : α) : Mat4 α :=
  let width := right - left
  let height := top - bottom
  let depth := zfar - znear
  let sx := 2 / width
  let sy := 2 / height
  let sz := 2 / -depth
  let tx := -(right + left) / width
  let ty := -(top + bottom) / height
  let tz := -(zfar + znear) / depth
  ⟨sx, 0, 0, 0,
   0, sy, 0, 0,
   0, 0, sz, 0,
   tx, ty, tz, 1⟩

/-- `create_perspective(left, right, bottom, top, znear, zfar, fov=60)`:
perspective projection factory.  The source rebinds `width`/`height`:
the first bindings feed only the aspect ratio, the second ones (from
`xymax`) feed the matrix. -/
def create_perspective (T : TrigOps α)
    (left right bottom top znear zfar fov : α) : Mat4 α :=
  let width := right - left
  let height := top - bottom
  let aspect := width / height
  let xymax := znear * T.tan (fov * T.pi / 360)
  let ymin := -xymax
  let xmin := -xymax
  let width := xymax - xmin
  let height := xymax - ymin
  let depth := zfar - znear
  let q := -(zfar + znear) / depth
  let qn := -2 * zfar * znear / depth
  let w := 2 * znear / width
  let w := w / aspect
  let h := 2 * znear / height
  ⟨w, 0, 0, 0,
   0, h, 0, 0,
   0, 0, q, -1,
   0, 0, qn, 0⟩

/-!
## Theorems about the claims
-/

/-- C5: for every matrix `M`, `M @ Identity = M` and `Identity @ M = M`,
where `Identity` is the matrix produced by construction with no arguments:
1.0 at linear indices 0, 5, 10, 15 and 0.0 at every other index. -/
theorem matmul_identity_laws (α : Type) [Field α] :
    Mat4.init (none : Option (List α)) = Except.ok Mat4.identity ∧
    (Mat4.identity : Mat4 α) =
      ⟨1, 0, 0, 0, 0, 1, 0, 0, 0, 0, 1, 0, 0, 0, 0, 1⟩ ∧
    ∀ M : Mat4 α, M.matmul Mat4.identity = M ∧ Mat4.identity.matmul M = M := by
  refine ⟨rfl, rfl, fun M => ⟨?_, ?_⟩⟩ <;>
    (cases M; ext <;> simp [Mat4.matmul, Mat4.identity])

/-- C7: `translate(x, y, z)` adds `x`, `y`, `z` to components 12, 13, 14
respectively and leaves the other 13 components exactly unchanged; on the
identity, `translate(1, 2, 3)` yields components 12, 13, 14 = (1, 2, 3)
with everything else still identity. -/
theorem translate_spec (α : Type) [Field α] (M : Mat4 α) (x y z : α) :
    ((M.translate x y z).m12 = M.m12 + x ∧
     (M.translate x y z).m13 = M.m13 + y ∧
     (M.translate x y z).m14 = M.m14 + z) ∧
    ((M.translate x y z).m0 = M.m0 ∧ (M.translate x y z).m1 = M.m1 ∧
     (M.translate x y z).m2 = M.m2 ∧ (M.translate x y z).m3 = M.m3 ∧
     (M.translate x y z).m4 = M.m4 ∧ (M.translate x y z).m5 = M.m5 ∧
     (M.translate x y z).m6 = M.m6 ∧ (M.translate x y z).m7 = M.m7 ∧
     (M.translate x y z).m8 = M.m8 ∧ (M.translate x y z).m9 = M.m9 ∧
     (M.translate x y z).m10 = M.m10 ∧ (M.translate x y z).m11 = M.m11 ∧
     (M.translate x y z).m15 = M.m15) ∧
    (Mat4.identity : Mat4 α).translate 1 2 3 =
      ⟨1, 0, 0, 0, 0, 1, 0, 0, 0, 0, 1, 0, 1, 2, 3, 1⟩ := by
  refine ⟨⟨rfl, rfl, rfl⟩,
          ⟨rfl, rfl, rfl, rfl, rfl, rfl, rfl, rfl, rfl, rfl, rfl, rfl, rfl⟩,
          ?_⟩
  ext <;> simp [Mat4.translate, Mat4.identity]

/-- C10: constructing from an empty value sequence is rejected by the same
length check as other wrong-length inputs (it does not yield the identity);
only the absent (`None`) argument produces the identity default. -/
theorem init_empty_rejected (α : Type) [Field α] :
    Mat4.init (some ([] : List α)) =
      Except.error "A 4x4 Matrix requires 16 values" ∧
    Mat4.init (none : Option (List α)) = Except.ok Mat4.identity :=
  ⟨rfl, rfl⟩

/-- C6 (counterexample): elementwise subtraction is not associative; at
`A = B = C = Identity` over `ℚ`, `(A - B) - C` has `-1` on the diagonal
while `A - (B - C)` has `1`. -/
theorem elementwise_sub_not_assoc :
    ¬ (((Mat4.identity : Mat4 ℚ).sub Mat4.identity).sub Mat4.identity =
        Mat4.identity.sub (Mat4.identity.sub Mat4.identity)) := by
  intro h
  have h0 := congrArg Mat4.m0 h
  norm_num [Mat4.sub, Mat4.identity] at h0

/-- C6 (amended): elementwise add, subtract and multiply are componentwise
(component `i` of the result is `A[i] op B[i]` for all 16 positions); add
and multiply are associative; and the all-zero matrix is the identity for
elementwise add.  (Subtraction is componentwise but not associative.) -/
theorem elementwise_ops_componentwise (α : Type) [Field α] (A B C : Mat4 α) :
    (∀ i : Fin 16,
      (A.add B).get i = A.get i + B.get i ∧
      (A.sub B).get i = A.get i - B.get i ∧
      (A.mul B).get i = A.get i * B.get i) ∧
    (A.add B).add C = A.add (B.add C) ∧
    (A.mul B).mul C = A.mul (B.mul C) ∧
    A.add ⟨0, 0, 0, 0, 0, 0, 0, 0, 0, 0, 0, 0, 0, 0, 0, 0⟩ = A ∧
    Mat4.add ⟨0, 0, 0, 0, 0, 0, 0, 0, 0, 0, 0, 0, 0, 0, 0, 0⟩ A = A := by
  refine ⟨fun i => ?_, ?_, ?_, ?_, ?_⟩
  · fin_cases i <;> exact ⟨rfl, rfl, rfl⟩
  all_goals ext <;> simp [Mat4.add, Mat4.mul, add_assoc, mul_assoc]

/-- C8: constructing from a non-empty list whose length is not 16 fails
with the assert condition and no matrix is produced; constructing from
exactly 16 values succeeds with those values in row-major order. -/
theorem init_length_check (α : Type) [Field α] :
    (∀ vs : List α, vs ≠ [] → vs.length ≠ 16 →
      Mat4.init (some vs) = Except.error "A 4x4 Matrix requires 16 values") ∧
    (∀ a0 a1 a2 a3 a4 a5 a6 a7 a8 a9 a10 a11 a12 a13 a14 a15 : α,
      Mat4.init (some [a0, a1, a2, a3, a4, a5, a6, a7,
                       a8, a9, a10, a11, a12, a13, a14, a15]) =
        Except.ok ⟨a0, a1, a2, a3, a4, a5, a6, a7,
                   a8, a9, a10, a11, a12, a13, a14, a15⟩) := by
  constructor
  · intro vs _ h
    simp [Mat4.init, h]
  · intro a0 a1 a2 a3 a4 a5 a6 a7 a8 a9 a10 a11 a12 a13 a14 a15
    rfl

/-- C8 (witness): a length-3 list is rejected and a length-16 list is
accepted with its values in order. -/
theorem init_length_check_witness :
    Mat4.init (some ([1, 2, 3] : List ℚ)) =
      Except.error "A 4x4 Matrix requires 16 values" ∧
    Mat4.init (some ([1, 2, 3, 4, 5, 6, 7, 8,
                      9, 10, 11, 12, 13, 14, 15, 16] : List ℚ)) =
      Except.ok ⟨1, 2, 3, 4, 5, 6, 7, 8, 9, 10, 11, 12, 13, 14, 15, 16⟩ :=
  ⟨(init_length_check ℚ).1 [1, 2, 3] (by simp) (by simp),
   (init_length_check ℚ).2 1 2 3 4 5 6 7 8 9 10 11 12 13 14 15 16⟩

/-- C2: `create_orthogonal` places `2/(right-left)` at index 0,
`2/(top-bottom)` at index 5, `-2/(zfar-znear)` at index 10, the
translation components at indices 12, 13, 14, `1` at index 15 and `0`
elsewhere; in particular `create_orthogonal(-1,1,-1,1,1,100)[10] = -2/99`. -/
theorem create_orthogonal_components :
    (∀ (α : Type) [Field α],
      ∀ left right bottom top znear zfar : α,
      right ≠ left → top ≠ bottom → zfar ≠ znear →
      create_orthogonal left right bottom top znear zfar =
        ⟨2 / (right - left), 0, 0, 0,
         0, 2 / (top - bottom), 0, 0,
         0, 0, -2 / (zfar - znear), 0,
         -(right + left) / (right - left), -(top + bottom) / (top - bottom),
         -(zfar + znear) / (zfar - znear), 1⟩) ∧
    (create_orthogonal (-1 : ℚ) 1 (-1) 1 1 100).m10 = -2 / 99 := by
  constructor
  · intro α _ left right bottom top znear zfar _ _ _
    ext <;> simp [create_orthogonal, div_neg, neg_div]
    rw [← neg_sub zfar znear, div_neg]
  · norm_num [create_orthogonal]

/-- C2 (witness): concrete instance at `(-1, 1, -1, 1, 1, 100)` over `ℚ`. -/
theorem create_orthogonal_components_witness :
    create_orthogonal (-1 : ℚ) 1 (-1) 1 1 100 =
      ⟨2 / (1 - (-1)), 0, 0, 0,
       0, 2 / (1 - (-1)), 0, 0,
       0, 0, -2 / (100 - 1), 0,
       -(1 + (-1)) / (1 - (-1)), -(1 + (-1)) / (1 - (-1)),
       -((100 : ℚ) + 1) / (100 - 1), 1⟩ :=
  create_orthogonal_components.1 ℚ (-1) 1 (-1) 1 1 100
    (by norm_num) (by norm_num) (by norm_num)

/-- C4: the projection factories are deterministic: two calls whose
argument tuples are equal return matrices equal in every one of the 16
components (the memoization cannot be observed in the values). -/
theorem projection_factories_deterministic :
    (∀ l r b t n f l2 r2 b2 t2 n2 f2 : ℚ,
      (l, r, b, t, n, f) = (l2, r2, b2, t2, n2, f2) →
      ∀ i : Fin 16,
        (create_orthogonal l r b t n f).get i =
          (create_orthogonal l2 r2 b2 t2 n2 f2).get i) ∧
    (∀ (T : TrigOps ℝ) (l r b t n f fov l2 r2 b2 t2 n2 f2 fov2 : ℝ),
      (l, r, b, t, n, f, fov) = (l2, r2, b2, t2, n2, f2, fov2) →
      ∀ i : Fin 16,
        (create_perspective T l r b t n f fov).get i =
          (create_perspective T l2 r2 b2 t2 n2 f2 fov2).get i) := by
  constructor
  · intro l r b t n f l2 r2 b2 t2 n2 f2 h i
    simp only [Prod.mk.injEq] at h
    obtain ⟨rfl, rfl, rfl, rfl, rfl, rfl⟩ := h
    rfl
  · intro T l r b t n f fov l2 r2 b2 t2 n2 f2 fov2 h i
    simp only [Prod.mk.injEq] at h
    obtain ⟨rfl, rfl, rfl, rfl, rfl, rfl, rfl⟩ := h
    rfl

/-- C4 (witness): two calls with equal argument tuples agree at index 10
for the orthographic factory and at index 11 for the perspective factory. -/
theorem projection_factories_deterministic_witness :
    (create_orthogonal (-1 : ℚ) 1 (-1) 1 1 100).get (10 : Fin 16) =
      (create_orthogonal (-1 : ℚ) 1 (-1) 1 1 100).get (10 : Fin 16) ∧
    (create_perspective ⟨Real.cos, Real.sin, Real.tan, Real.pi⟩
        (-1 : ℝ) 1 (-1) 1 1 100 60).get (11 : Fin 16) =
      (create_perspective ⟨Real.cos, Real.sin, Real.tan, Real.pi⟩
        (-1 : ℝ) 1 (-1) 1 1 100 60).get (11 : Fin 16) :=
  ⟨projection_factories_deterministic.1 (-1) 1 (-1) 1 1 100
      (-1) 1 (-1) 1 1 100 rfl (10 : Fin 16),
   projection_factories_deterministic.2 ⟨Real.cos, Real.sin, Real.tan, Real.pi⟩
      (-1) 1 (-1) 1 1 100 60 (-1) 1 (-1) 1 1 100 60 rfl (11 : Fin 16)⟩

/-- C1: `rotate(angle, x, y, z)` builds the rotation matrix `R` from the
axis-angle pair — with `θ = angle` converted to radians,
`c = cos θ`, `s = sin θ`, `t = 1 - c`, rows
`(c + t·x·x, t·x·y + s·z, t·x·z - s·y, 0)`,
`(t·x·y - s·z, c + t·y·y, t·y·z + s·x, 0)`,
`(t·x·z + s·y, t·y·z - s·x, c + t·z·z, 0)` and `(0, 0, 0, 0)`,
with no normalization of the axis — and replaces the receiver wholesale
with `M @ R`. -/
theorem rotate_matches_rodrigues_product (M : Mat4 ℝ) (angle x y z : ℝ) :
    M.rotate ⟨Real.cos, Real.sin, Real.tan, Real.pi⟩ angle x y z =
      M.matmul
        ⟨Real.cos (angle * Real.pi / 180) +
           (1 - Real.cos (angle * Real.pi / 180)) * x * x,
         (1 - Real.cos (angle * Real.pi / 180)) * x * y +
           Real.sin (angle * Real.pi / 180) * z,
         (1 - Real.cos (angle * Real.pi / 180)) * x * z -
           Real.sin (angle * Real.pi / 180) * y,
         0,
         (1 - Real.cos (angle * Real.pi / 180)) * x * y -
           Real.sin (angle * Real.pi / 180) * z,
         Real.cos (angle * Real.pi / 180) +
           (1 - Real.cos (angle * Real.pi / 180)) * y * y,
         (1 - Real.cos (angle * Real.pi / 180)) * y * z +
           Real.sin (angle * Real.pi / 180) * x,
         0,
         (1 - Real.cos (angle * Real.pi / 180)) * x * z +
           Real.sin (angle * Real.pi / 180) * y,
         (1 - Real.cos (angle * Real.pi / 180)) * y * z -
           Real.sin (angle * Real.pi / 180) * x,
         Real.cos (angle * Real.pi / 180) +
           (1 - Real.cos (angle * Real.pi / 180)) * z * z,
         0, 0, 0, 0, 0⟩ := by
  cases M
  apply Mat4.ext <;> simp only [Mat4.rotate, Mat4.matmul] <;> ring

/-- C9: `rotate` always zeroes the receiver's fourth column (components
3, 7, 11 and 15), because the rotation matrix's fourth column is all
zero; in particular `rotate(0, 0, 0, 0)` is not a no-op on the identity. -/
theorem rotate_zeroes_fourth_column :
    (∀ (α : Type) [Field α] (T : TrigOps α) (M : Mat4 α)
       (angle x y z : α),
      (M.rotate T angle x y z).m3 = 0 ∧
      (M.rotate T angle x y z).m7 = 0 ∧
      (M.rotate T angle x y z).m11 = 0 ∧
      (M.rotate T angle x y z).m15 = 0) ∧
    (Mat4.identity : Mat4 ℝ).rotate
        ⟨Real.cos, Real.sin, Real.tan, Real.pi⟩ 0 0 0 0 ≠
      Mat4.identity := by
  constructor
  · intro α _ T M angle x y z
    refine ⟨?_, ?_, ?_, ?_⟩ <;> simp [Mat4.rotate, Mat4.matmul]
  · intro h
    have h15 := congrArg Mat4.m15 h
    simp [Mat4.rotate, Mat4.matmul, Mat4.identity] at h15

/-- C3: `create_perspective` places `w = (2·znear/width)/aspect` at index
0, `h = 2·znear/height` at index 5, `q = -(zfar+znear)/(zfar-znear)` at
index 10, `-1` at index 11, `qn = -2·zfar·znear/(zfar-znear)` at index 14
and `0` elsewhere, where `aspect = (right-left)/(top-bottom)`,
`xymax = znear·tan(fov·π/360)` and `width = height = 2·xymax`; the
`left/right/bottom/top` arguments influence the result only through the
aspect ratio. -/
theorem create_perspective_components (l r b t n f fov : ℝ)
    (_htb : t ≠ b) (_hfn : f ≠ n)
    (_hw : n * Real.tan (fov * Real.pi / 360) ≠ 0) :
    (create_perspective ⟨Real.cos, Real.sin, Real.tan, Real.pi⟩
        l r b t n f fov =
      ⟨2 * n / (2 * (n * Real.tan (fov * Real.pi / 360))) /
          ((r - l) / (t - b)), 0, 0, 0,
       0, 2 * n / (2 * (n * Real.tan (fov * Real.pi / 360))), 0, 0,
       0, 0, -(f + n) / (f - n), -1,
       0, 0, -2 * f * n / (f - n), 0⟩) ∧
    (∀ l2 r2 b2 t2 : ℝ, (r2 - l2) / (t2 - b2) = (r - l) / (t - b) →
      create_perspective ⟨Real.cos, Real.sin, Real.tan, Real.pi⟩
          l2 r2 b2 t2 n f fov =
        create_perspective ⟨Real.cos, Real.sin, Real.tan, Real.pi⟩
          l r b t n f fov) := by
  constructor
  · ext <;> simp [create_perspective] <;> ring
  · intro l2 r2 b2 t2 h
    simp only [create_perspective]
    rw [h]

/-- C3 (witness): concrete instance at
`(-1, 1, -1, 1, 1, 100, fov = 90)`, where `tan(90·π/360) = tan(π/4) = 1`
is nonzero. -/
theorem create_perspective_components_witness :
    create_perspective ⟨Real.cos, Real.sin, Real.tan, Real.pi⟩
        (-1 : ℝ) 1 (-1) 1 1 100 90 =
      ⟨2 * 1 / (2 * (1 * Real.tan ((90 : ℝ) * Real.pi / 360))) /
          ((1 - (-1)) / (1 - (-1))), 0, 0, 0,
       0, 2 * 1 / (2 * (1 * Real.tan ((90 : ℝ) * Real.pi / 360))), 0, 0,
       0, 0, -((100 : ℝ) + 1) / (100 - 1), -1,
       0, 0, -2 * 100 * 1 / ((100 : ℝ) - 1), 0⟩ :=
  (create_perspective_components (-1) 1 (-1) 1 1 100 90
    (by norm_num) (by norm_num)
    (by
      have h : (90 : ℝ) * Real.pi / 360 = Real.pi / 4 := by ring
      rw [h, Real.tan_pi_div_four]
      norm_num)).1

end Pyglet
